import Mathlib

/-!
Shallow embedding of the Bill-Manager repository
(`bill-mgmt-app/bill-mgmt-server/server.js` together with the React client
`App.jsx`) and proofs about its CRUD behaviour.

The bills table is modelled as a `List Bill`; every column other than the
sequence-assigned `billid` is nullable, so it is an `Option`.  Amounts are
modelled as exact rationals (`ℚ`): the JavaScript comparisons `==` and `> 0`
on numbers are exact, and no claim hinges on binary floating-point rounding.
`none` plays the role of both JavaScript `undefined` in a request body and
SQL `NULL` in a stored row (body-parser yields `undefined` for an absent
JSON field, and `pg` inserts `undefined` parameters as `NULL`).
-/

namespace BillMgmt

/-- A JavaScript number-or-undefined value, as destructured from a request
body (`none` = `undefined`) or stored in a nullable numeric column. -/
abbrev JNum := Option ℚ

/-- A JavaScript string-or-undefined value. -/
abbrev JStr := Option String

/-- A JavaScript boolean-or-undefined value. -/
abbrev JBool := Option Bool

/-- JavaScript loose equality `a == b` on number-or-undefined values:
`undefined == undefined` is `true`, `undefined == n` is `false`, and two
numbers compare exactly. -/
def jsEq : JNum → JNum → Bool
  | some a, some b => a == b
  | none, none => true
  | _, _ => false

/-- JavaScript `a > 0` on a number-or-undefined value:
`undefined > 0` is `false` (NaN comparison), a number compares exactly. -/
def jsGtZero : JNum → Bool
  | some a => decide (0 < a)
  | none => false

/-- JavaScript truthiness of a string field: `undefined` and `""` are falsy. -/
def truthyStr : JStr → Bool
  | some s => !s.isEmpty
  | none => false

/-- JavaScript truthiness of a numeric field: `undefined` and `0` are falsy. -/
def truthyNum : JNum → Bool
  | some q => !(q == 0)
  | none => false

/-- A row of the `bills` table.  `billid` is the integer primary key assigned
by the `bills_billid_seq` sequence; every other column is nullable. -/
structure Bill where
  billid : Nat
  billfrom : JStr
  billType : JStr
  amountDue : JNum
  dueDate : JStr
  isPaid : JBool
  paidInFull : JBool
  amountPaid : JNum
  datePaid : JStr
  paidBy : JStr
deriving DecidableEq

/-- A parsed JSON request body as destructured by the route handlers:
`const {billfrom,billType,amountDue,dueDate,isPaid,paidInFull,amountPaid,
datePaid,paidBy}=req.body`.  An absent field destructures to `undefined`,
i.e. `none`. -/
structure Body where
  billfrom : JStr := none
  billType : JStr := none
  amountDue : JNum := none
  dueDate : JStr := none
  isPaid : JBool := none
  paidInFull : JBool := none
  amountPaid : JNum := none
  datePaid : JStr := none
  paidBy : JStr := none
deriving DecidableEq

/-- Outcome of a route handler as seen by the HTTP caller.  `jsonErr` is the
`if (err) return res.json(err)` branch (the error payload is opaque and not
modelled); the code has no not-found outcome of any kind. -/
inductive ApiResult where
  | ok (status : Nat) (msg : String)
  | created (status : Nat) (row : Bill)
  | jsonErr
deriving DecidableEq

/-- The row the `INSERT INTO bills(...) VALUES($1,...,$9) RETURNING *` of
`POST /addbill` produces: every column value is taken verbatim from the
request body — including `isPaid` and `paidInFull` — and `billid` comes from
the sequence. -/
def newRow (nextId : Nat) (body : Body) : Bill :=
  { billid := nextId, billfrom := body.billfrom, billType := body.billType,
    amountDue := body.amountDue, dueDate := body.dueDate,
    isPaid := body.isPaid, paidInFull := body.paidInFull,
    amountPaid := body.amountPaid, datePaid := body.datePaid,
    paidBy := body.paidBy }

/-- `POST /addbill` (server.js 110–139): no validation, inserts the body's
column values, answers 201 with the returned row. -/
def addbill (nextId : Nat) (body : Body) (store : List Bill) :
    List Bill × ApiResult :=
  (store ++ [newRow nextId body], .created 201 (newRow nextId body))

/-- Effect on one row of the two `UPDATE` statements of `PATCH /paybill`:
both set `isPaid`/`paidInFull` to the literals chosen by the branch and the
payment columns to the body's values, on the row whose `billid` matches. -/
def payRow (billNum : Int) (ip pf : Bool) (body : Body) (b : Bill) : Bill :=
  if (b.billid : Int) = billNum then
    { b with
      isPaid := some ip,
      paidInFull := some pf,
      amountPaid := body.amountPaid,
      datePaid := body.datePaid,
      paidBy := body.paidBy }
  else b

/-- Success message of `PATCH /paybill`. -/
def paybillMsg (n : Int) : String :=
  "The bills table has been updated successfully for payment of the billId: "
    ++ toString n

/-- `PATCH /paybill/:billId` (server.js 143–179) with the bill id already
parsed.  Branch 1: `(amountPaid == amountDue) && (amountPaid > 0)` sets
`isPaid=true, paidInFull=true`; branch 2: `amountPaid > 0` sets
`isPaid=true, paidInFull=false`; otherwise `sql` stays `null`, so
`pool.query(null, ...)` fails and the handler answers `res.json(err)`
without touching the table. -/
def paybill (billNum : Int) (body : Body) (store : List Bill) :
    List Bill × ApiResult :=
  if jsEq body.amountPaid body.amountDue && jsGtZero body.amountPaid then
    (store.map (payRow billNum true true body), .ok 200 (paybillMsg billNum))
  else if jsGtZero body.amountPaid then
    (store.map (payRow billNum true false body), .ok 200 (paybillMsg billNum))
  else
    (store, .jsonErr)

/-- Flag pair chosen by the three `UPDATE` statements of `PATCH /updatebill`:
`amountPaid == amountDue` (loose equality, no positivity guard) gives
`(true, true)`; else `amountPaid > 0` gives `(true, false)`; else
`(false, false)`. -/
def updatebillFlags (body : Body) : Bool × Bool :=
  if jsEq body.amountPaid body.amountDue then (true, true)
  else if jsGtZero body.amountPaid then (true, false)
  else (false, false)

/-- Effect on one row of the `UPDATE` statements of `PATCH /updatebill`:
all non-key columns are overwritten — the descriptive columns and payment
columns from the body, the two flags with the branch's literals. -/
def updateRow (billNum : Int) (ip pf : Bool) (body : Body) (b : Bill) : Bill :=
  if (b.billid : Int) = billNum then
    { b with
      billfrom := body.billfrom,
      billType := body.billType,
      amountDue := body.amountDue,
      dueDate := body.dueDate,
      isPaid := some ip,
      paidInFull := some pf,
      amountPaid := body.amountPaid,
      datePaid := body.datePaid,
      paidBy := body.paidBy }
  else b

/-- Success message of `PATCH /updatebill`. -/
def updatebillMsg (n : Int) : String :=
  "The bills table has been updated successfully for the billId: " ++ toString n

/-- `PATCH /updatebill/:billId` (server.js 184–224) with the bill id already
parsed: one of the three `UPDATE` statements always runs. -/
def updatebill (billNum : Int) (body : Body) (store : List Bill) :
    List Bill × ApiResult :=
  (store.map
      (updateRow billNum (updatebillFlags body).1 (updatebillFlags body).2 body),
    .ok 200 (updatebillMsg billNum))

/-- Success message of `DELETE /bills/:billId`. -/
def deletebillMsg (n : Int) : String :=
  "Successfully deleted the bill with the billId: " ++ toString n

/-- `DELETE /bills/:billId` (server.js 227–243) with the bill id already
parsed: `DELETE FROM bills WHERE billid=$1`, then 200 with the confirmation
message whether or not any row matched. -/
def deletebill (billNum : Int) (store : List Bill) : List Bill × ApiResult :=
  (store.filter (fun b => !((b.billid : Int) == billNum)),
    .ok 200 (deletebillMsg billNum))

/-- Rows returned by `SELECT ... FROM bills WHERE billid=$1`; the handlers
answer with `result.rows[0]`, i.e. the head. -/
def getbillRow (billNum : Int) (store : List Bill) : Option Bill :=
  (store.filter (fun b => (b.billid : Int) == billNum)).head?

/-- Longest leading run of decimal digits of a character list. -/
def leadingDigits : List Char → List Char
  | [] => []
  | c :: cs => if c.isDigit then c :: leadingDigits cs else []

/-- Numeric value of a list of decimal digits. -/
def digitsToNat (ds : List Char) : Nat :=
  ds.foldl (fun a c => a * 10 + (c.toNat - 48)) 0

/-- JavaScript `parseInt(s)` (radix 10, as used on the `:billId` path
segments): skip leading whitespace, read an optional sign and then the
longest digit run; `none` is `NaN` (no digits at all).  The `0x` hex prefix
of `parseInt` is not modelled: path segments of interest are decimal. -/
def jsParseInt (s : String) : Option Int :=
  match s.toList.dropWhile Char.isWhitespace with
  | '-' :: rest =>
      let ds := leadingDigits rest
      if ds.isEmpty then none else some (-(digitsToNat ds : Int))
  | '+' :: rest =>
      let ds := leadingDigits rest
      if ds.isEmpty then none else some (digitsToNat ds : Int)
  | cs =>
      let ds := leadingDigits cs
      if ds.isEmpty then none else some (digitsToNat ds : Int)

/-- `PATCH /paybill/:billId` from the raw path segment:
`const billNum=parseInt(req.params.billId)` and then the query runs with
whatever `parseInt` produced — there is no rejection step.  When `billNum`
is `NaN` the parameterised `WHERE billid=$4` fails in PostgreSQL and the
handler answers `res.json(err)` with the table untouched. -/
def paybillRoute (seg : String) (body : Body) (store : List Bill) :
    List Bill × ApiResult :=
  match jsParseInt seg with
  | some n => paybill n body store
  | none => (store, .jsonErr)

/-- `PATCH /updatebill/:billId` from the raw path segment (same
`parseInt` coercion, no rejection). -/
def updatebillRoute (seg : String) (body : Body) (store : List Bill) :
    List Bill × ApiResult :=
  match jsParseInt seg with
  | some n => updatebill n body store
  | none => (store, .jsonErr)

/-- `DELETE /bills/:billId` from the raw path segment (same `parseInt`
coercion, no rejection). -/
def deletebillRoute (seg : String) (store : List Bill) :
    List Bill × ApiResult :=
  match jsParseInt seg with
  | some n => deletebill n store
  | none => (store, .jsonErr)

/-- Client-side guard of `handleSubmit` in `App.jsx`:
`if (!billData.billfrom || !billData.billType || !billData.amountDue ||
!billData.dueDate)` — JavaScript truthiness, so empty, zero and absent all
count as missing. -/
def addRequiredMissing (body : Body) : Bool :=
  !truthyStr body.billfrom || !truthyStr body.billType ||
    !truthyNum body.amountDue || !truthyStr body.dueDate

/-- Error message the client raises when the add-bill guard fails. -/
def addValidationMsg : String :=
  "The Bill From, Bill Type, Amount Due, and Due Date fields are required at the time of bill entry!"

/-- The add-bill flow of the React client composed with the server route:
`handleSubmit` raises the validation message and issues no request when any
required field is falsy; otherwise (on the fresh-add path, where
`billData.billid` is absent) it POSTs the bill data to `/addbill`.
Returns the resulting store and the `errorMsg` state. -/
def handleSubmit (nextId : Nat) (body : Body) (store : List Bill) :
    List Bill × Option String :=
  if addRequiredMissing body then (store, some addValidationMsg)
  else ((addbill nextId body store).1, none)

/-- Whether `needle` matches at the head of `hay`. -/
def matchesAt : List Char → List Char → Bool
  | [], _ => true
  | _ :: _, [] => false
  | c :: cs, d :: ds => c == d && matchesAt cs ds

/-- Whether `needle` occurs as a contiguous run inside `hay`. -/
def occursIn (needle : List Char) : List Char → Bool
  | [] => needle.isEmpty
  | d :: ds => matchesAt needle (d :: ds) || occursIn needle ds

/-- Whether `needle` is a substring of `hay`. -/
def strContains (hay needle : String) : Bool :=
  occursIn needle.toList hay.toList

/-- The status-derivation rule of §4.1 of the spec, which is also exactly
the branch structure of `PATCH /paybill`: `(isPaid, paidInFull)` from the
due and paid amounts, with the positivity guard. -/
def deriveStatus (amountDue amountPaid : JNum) : Bool × Bool :=
  if jsEq amountPaid amountDue && jsGtZero amountPaid then (true, true)
  else if jsGtZero amountPaid then (true, false)
  else (false, false)

/-- A row satisfies the `paidInFull ⇒ isPaid` invariant. -/
def flagsOk (b : Bill) : Bool :=
  !(b.paidInFull == some true) || (b.isPaid == some true)

/-- Mapping a function that fixes every member of a list leaves it unchanged. -/
theorem map_fixed {f : Bill → Bill} :
    ∀ s : List Bill, (∀ b ∈ s, f b = b) → s.map f = s := by
  intro s h
  induction s with
  | nil => rfl
  | cons a t ih =>
      simp only [List.map_cons]
      rw [h a (List.mem_cons_self a t), ih fun b hb => h b (List.mem_cons_of_mem a hb)]

/-- Mapping a pointwise-idempotent function twice equals mapping it once. -/
theorem map_map_idem {f : Bill → Bill} (hf : ∀ b, f (f b) = f b) :
    ∀ s : List Bill, (s.map f).map f = s.map f := by
  intro s
  induction s with
  | nil => rfl
  | cons a t ih => simp only [List.map_cons, hf, ih]

/-- A row whose id does not match is untouched by the paybill update. -/
theorem payRow_skip {n : Int} {ip pf : Bool} {body : Body} {b : Bill}
    (h : ¬(b.billid : Int) = n) : payRow n ip pf body b = b := by
  simp [payRow, h]

/-- A row whose id does not match is untouched by the updatebill update. -/
theorem updateRow_skip {n : Int} {ip pf : Bool} {body : Body} {b : Bill}
    (h : ¬(b.billid : Int) = n) : updateRow n ip pf body b = b := by
  simp [updateRow, h]

/-- The paybill update never changes a row's primary key. -/
theorem payRow_billid (n : Int) (ip pf : Bool) (body : Body) (b : Bill) :
    (payRow n ip pf body b).billid = b.billid := by
  unfold payRow; split <;> rfl

/-- The updatebill update never changes a row's primary key. -/
theorem updateRow_billid (n : Int) (ip pf : Bool) (body : Body) (b : Bill) :
    (updateRow n ip pf body b).billid = b.billid := by
  unfold updateRow; split <;> rfl

/-- The updatebill row update is idempotent on every row. -/
theorem updateRow_idem (n : Int) (ip pf : Bool) (body : Body) (b : Bill) :
    updateRow n ip pf body (updateRow n ip pf body b) = updateRow n ip pf body b := by
  unfold updateRow
  by_cases h : (b.billid : Int) = n
  · simp [h]
  · simp [h]

/-- Fields of a matching row after the paybill row update. -/
theorem payRow_mem_fields (n : Int) (ip pf : Bool) (body : Body) (s : List Bill) :
    ∀ b ∈ s.map (payRow n ip pf body), (b.billid : Int) = n →
      b.isPaid = some ip ∧ b.paidInFull = some pf ∧
      b.amountPaid = body.amountPaid ∧ b.datePaid = body.datePaid ∧
      b.paidBy = body.paidBy := by
  intro b hb hid
  rcases List.mem_map.mp hb with ⟨a, _, rfl⟩
  by_cases h : (a.billid : Int) = n
  · simp [payRow, h]
  · exact absurd (by rwa [payRow_skip h] at hid) h

/-- Flags of a matching row after the updatebill row update. -/
theorem updateRow_mem_fields (n : Int) (ip pf : Bool) (body : Body) (s : List Bill) :
    ∀ b ∈ s.map (updateRow n ip pf body), (b.billid : Int) = n →
      b.isPaid = some ip ∧ b.paidInFull = some pf := by
  intro b hb hid
  rcases List.mem_map.mp hb with ⟨a, _, rfl⟩
  by_cases h : (a.billid : Int) = n
  · simp [updateRow, h]
  · exact absurd (by rwa [updateRow_skip h] at hid) h

/-- C8: updateBill is idempotent — running `PATCH /updatebill/:billId` a
second time with the identical request body leaves the store (and the
response) exactly as after the first run. -/
theorem c8_updatebill_idempotent (n : Int) (body : Body) (s : List Bill) :
    updatebill n body (updatebill n body s).1 = updatebill n body s := by
  unfold updatebill
  simp only [Prod.mk.injEq, and_true]
  exact map_map_idem (updateRow_idem n _ _ body) s

/-- C4 (amended): for an id matching no stored bill, paybill (with a
positive payment), updatebill and deletebill all answer the 200 success
confirmation with the store unchanged; there is no not-found outcome. -/
theorem c4_missing_id_reports_ok (n : Int) (body : Body) (s : List Bill)
    (hn : ∀ b ∈ s, ¬(b.billid : Int) = n)
    (hpos : jsGtZero body.amountPaid = true) :
    paybill n body s = (s, .ok 200 (paybillMsg n)) ∧
    updatebill n body s = (s, .ok 200 (updatebillMsg n)) ∧
    deletebill n s = (s, .ok 200 (deletebillMsg n)) := by
  have hmap : ∀ ip pf : Bool, s.map (payRow n ip pf body) = s := fun ip pf =>
    map_fixed s fun b hb => payRow_skip (hn b hb)
  refine ⟨?_, ?_, ?_⟩
  · unfold paybill
    cases h1 : jsEq body.amountPaid body.amountDue <;> simp [h1, hpos, hmap]
  · unfold updatebill
    rw [map_fixed s fun b hb => updateRow_skip (hn b hb)]
  · unfold deletebill
    have : s.filter (fun b => !((b.billid : Int) == n)) = s := by
      rw [List.filter_eq_self]
      intro b hb
      simp [hn b hb]
    rw [this]

/-- C4 counterexample: deleting an id that matches no stored bill (store is
empty) reports success, not a not-found failure. -/
theorem c4_cx_delete_missing_ok :
    deletebill 2 [] = ([], .ok 200 (deletebillMsg 2)) := rfl

/-- C9 (amended): the parseInt-based id routes perform no validation — for
any path segment that `parseInt` coerces to an integer `n` (for example
`"12abc"` to `12`), pay, update and delete proceed to run the store
query/mutation at `n` exactly as if `n` had been supplied. -/
theorem c9_routes_coerce (seg : String) (n : Int) (body : Body) (s : List Bill)
    (h : jsParseInt seg = some n) :
    paybillRoute seg body s = paybill n body s ∧
    updatebillRoute seg body s = updatebill n body s ∧
    deletebillRoute seg s = deletebill n s := by
  unfold paybillRoute updatebillRoute deletebillRoute
  rw [h]
  exact ⟨rfl, rfl, rfl⟩

/-- A stored bill used by the C9 counterexample. -/
def waterBill : Bill :=
  { billid := 12, billfrom := some "Water Co", billType := some "Utility",
    amountDue := some 30, dueDate := some "2025-09-01", isPaid := some false,
    paidInFull := some false, amountPaid := some 0,
    datePaid := some "9999-01-01", paidBy := some "" }

/-- C9 counterexample: `DELETE /bills/12abc` is not rejected — the segment
is coerced to 12, the bill with id 12 is deleted from the store, and the
route answers the 200 success confirmation. -/
theorem c9_cx_coerced_delete :
    deletebillRoute "12abc" [waterBill] = ([], .ok 200 (deletebillMsg 12)) := by
  decide

/-- C7: paying an existing bill with a positive amount answers the success
confirmation, and the stored row afterwards has `isPaid = true`,
`paidInFull` equal to the exact comparison of the supplied `amountPaid`
with the supplied `amountDue`, and the supplied `amountPaid`, `datePaid`
and `paidBy` persisted. -/
theorem c7_paybill_positive (n : Int) (body : Body) (s : List Bill)
    (hex : ∃ b ∈ s, (b.billid : Int) = n)
    (hpos : jsGtZero body.amountPaid = true) :
    (paybill n body s).2 = .ok 200 (paybillMsg n) ∧
    (∃ b ∈ (paybill n body s).1, (b.billid : Int) = n) ∧
    (∀ b ∈ (paybill n body s).1, (b.billid : Int) = n →
      b.isPaid = some true ∧
      b.paidInFull = some (jsEq body.amountPaid body.amountDue) ∧
      b.amountPaid = body.amountPaid ∧
      b.datePaid = body.datePaid ∧
      b.paidBy = body.paidBy) := by
  rcases hex with ⟨w, hw, hwid⟩
  have key : ∀ pf : Bool,
      (paybill n body s).1 = s.map (payRow n true pf body) →
      (∃ b ∈ (paybill n body s).1, (b.billid : Int) = n) ∧
      (∀ b ∈ (paybill n body s).1, (b.billid : Int) = n →
        b.isPaid = some true ∧ b.paidInFull = some pf ∧
        b.amountPaid = body.amountPaid ∧ b.datePaid = body.datePaid ∧
        b.paidBy = body.paidBy) := by
    intro pf hstore
    constructor
    · refine ⟨payRow n true pf body w, ?_, ?_⟩
      · rw [hstore]
        exact List.mem_map_of_mem _ hw
      · rw [payRow_billid]
        exact hwid
    · intro b hb hid
      rw [hstore] at hb
      exact payRow_mem_fields n true pf body s b hb hid
  cases h1 : jsEq body.amountPaid body.amountDue
  · have hk := key false (by simp [paybill, h1, hpos])
    exact ⟨by simp [paybill, h1, hpos], hk.1, hk.2⟩
  · have hk := key true (by simp [paybill, h1, hpos])
    exact ⟨by simp [paybill, h1, hpos], hk.1, hk.2⟩

/-- C1 (amended): paybill and updatebill ignore any caller-supplied
`isPaid`/`paidInFull` — their results are identical whatever those body
fields hold — and the stored flags of an updated row are recomputed from
`amountPaid`/`amountDue` (the updatebill rule for update, §4.1's rule for
pay); addbill, by contrast, persists the supplied flags verbatim. -/
theorem c1_pay_update_ignore_flags (n : Int) (body : Body) (s : List Bill)
    (x y : JBool) :
    paybill n { body with isPaid := x, paidInFull := y } s = paybill n body s ∧
    updatebill n { body with isPaid := x, paidInFull := y } s = updatebill n body s ∧
    (∀ b ∈ (updatebill n body s).1, (b.billid : Int) = n →
      b.isPaid = some (updatebillFlags body).1 ∧
      b.paidInFull = some (updatebillFlags body).2) ∧
    (jsGtZero body.amountPaid = true →
      ∀ b ∈ (paybill n body s).1, (b.billid : Int) = n →
        b.isPaid = some (deriveStatus body.amountDue body.amountPaid).1 ∧
        b.paidInFull = some (deriveStatus body.amountDue body.amountPaid).2) := by
  refine ⟨rfl, rfl, ?_, ?_⟩
  · exact updateRow_mem_fields n _ _ body s
  · intro hpos b hb hid
    cases h1 : jsEq body.amountPaid body.amountDue
    · rw [show (paybill n body s).1 = s.map (payRow n true false body) by
        simp [paybill, h1, hpos]] at hb
      have hf := payRow_mem_fields n true false body s b hb hid
      simp [deriveStatus, h1, hpos, hf.1, hf.2.1]
    · rw [show (paybill n body s).1 = s.map (payRow n true true body) by
        simp [paybill, h1, hpos]] at hb
      have hf := payRow_mem_fields n true true body s b hb hid
      simp [deriveStatus, h1, hpos, hf.1, hf.2.1]

/-- The add-bill request body of the C1 counterexample: nothing has been
paid (`amountPaid = 0`), yet the caller supplies `isPaid = true` and
`paidInFull = true`. -/
def dentistBody : Body :=
  { billfrom := some "Dentist", billType := some "Medical",
    amountDue := some 50, dueDate := some "2025-09-15", isPaid := some true,
    paidInFull := some true, amountPaid := some 0,
    datePaid := some "9999-01-01", paidBy := some "" }

/-- C1 counterexample: `POST /addbill` persists the caller-supplied
`isPaid = true, paidInFull = true` even though the derivation rule yields
`(false, false)` for `amountPaid = 0`; the stored row returns them on read. -/
theorem c1_cx_addbill_persists_flags :
    (addbill 1 dentistBody []).2 = .created 201 (newRow 1 dentistBody) ∧
    (newRow 1 dentistBody).isPaid = some true ∧
    (newRow 1 dentistBody).paidInFull = some true ∧
    deriveStatus dentistBody.amountDue dentistBody.amountPaid = (false, false) ∧
    getbillRow 1 (addbill 1 dentistBody []).1 = some (newRow 1 dentistBody) := by
  decide

/-- C2 (amended): updatebill stores `isPaid = false, paidInFull = false`
for a non-positive (or absent) `amountPaid` only when `amountPaid` is also
not loosely equal to `amountDue`; the equality branch has no positivity
guard. -/
theorem c2_updatebill_nonpositive (n : Int) (body : Body) (s : List Bill)
    (h1 : jsGtZero body.amountPaid = false)
    (h2 : jsEq body.amountPaid body.amountDue = false) :
    updatebillFlags body = (false, false) ∧
    ∀ b ∈ (updatebill n body s).1, (b.billid : Int) = n →
      b.isPaid = some false ∧ b.paidInFull = some false := by
  have hf : updatebillFlags body = (false, false) := by
    simp [updatebillFlags, h1, h2]
  refine ⟨hf, ?_⟩
  intro b hb hid
  have h := updateRow_mem_fields n (updatebillFlags body).1 (updatebillFlags body).2
    body s b hb hid
  rw [hf] at h
  exact h

/-- A stored bill used by the C2 counterexample. -/
def powerBill : Bill :=
  { billid := 1, billfrom := some "Power Co", billType := some "Utility",
    amountDue := some 60, dueDate := some "2025-09-01", isPaid := some false,
    paidInFull := some false, amountPaid := some 0,
    datePaid := some "9999-01-01", paidBy := some "" }

/-- The update request body of the C2 counterexample: `amountDue` and
`amountPaid` both zero. -/
def powerBody : Body :=
  { billfrom := some "Power Co", billType := some "Utility",
    amountDue := some 0, dueDate := some "2025-09-01", amountPaid := some 0,
    datePaid := some "9999-01-01", paidBy := some "" }

/-- C2 counterexample: with `amountPaid = amountDue = 0` the stored flags
after updatebill are `isPaid = true, paidInFull = true`, not
`(false, false)` — the equality branch fires without a positivity guard. -/
theorem c2_cx_zero_marks_paid :
    (updatebill 1 powerBody [powerBill]).1 =
      [{ billid := 1, billfrom := some "Power Co", billType := some "Utility",
         amountDue := some 0, dueDate := some "2025-09-01",
         isPaid := some true, paidInFull := some true, amountPaid := some 0,
         datePaid := some "9999-01-01", paidBy := some "" }] := by
  decide

/-- A conjunct of a false boolean conjunction is false when the other
conjunct is true. -/
theorem andEqFalse {a b : Bool} (h1 : (a && b) = false) (h2 : b = true) :
    a = false := by
  rw [h2, Bool.and_true] at h1
  exact h1

/-- Rows touched by either paybill branch get `isPaid` set to the branch's
first literal; untouched rows stay in the store. -/
theorem payRow_mem_or (n : Int) (ip pf : Bool) (body : Body) (s : List Bill) :
    ∀ b ∈ s.map (payRow n ip pf body), b ∈ s ∨ b.isPaid = some ip := by
  intro b hb
  rcases List.mem_map.mp hb with ⟨a, ha, rfl⟩
  by_cases h : (a.billid : Int) = n
  · right
    simp [payRow, h]
  · left
    rwa [payRow_skip h]

/-- C10 (amended): when `amountPaid` is absent, zero or negative, neither
paybill branch selects an `UPDATE`, `sql` stays `null`, the query call
fails and the store is untouched; and every row a successful paybill does
write has `isPaid = true`, so paybill never sets `isPaid` back to false
(a positive partial payment does, however, set `paidInFull` to false). -/
theorem c10_paybill_null_guard (n : Int) (body : Body) (s : List Bill) :
    (jsGtZero body.amountPaid = false → paybill n body s = (s, .jsonErr)) ∧
    (∀ b ∈ (paybill n body s).1, b ∈ s ∨ b.isPaid = some true) := by
  constructor
  · intro h
    simp [paybill, h]
  · intro b hb
    cases hc1 : jsEq body.amountPaid body.amountDue && jsGtZero body.amountPaid
    · cases hc2 : jsGtZero body.amountPaid
      · rw [show (paybill n body s).1 = s by simp [paybill, hc1, hc2]] at hb
        exact Or.inl hb
      · rw [show (paybill n body s).1 = s.map (payRow n true false body) by
          simp [paybill, andEqFalse hc1 hc2, hc2]] at hb
        exact payRow_mem_or n true false body s b hb
    · rw [show (paybill n body s).1 = s.map (payRow n true true body) by
        simp [paybill, hc1]] at hb
      exact payRow_mem_or n true true body s b hb

/-- A fully paid stored bill used by the C10 counterexample. -/
def insuranceBill : Bill :=
  { billid := 3, billfrom := some "Insurer", billType := some "Insurance",
    amountDue := some 10, dueDate := some "2025-09-01", isPaid := some true,
    paidInFull := some true, amountPaid := some 10,
    datePaid := some "2025-08-12", paidBy := some "Visa" }

/-- A partial-payment request body used by the C10 counterexample. -/
def partialBody : Body :=
  { amountDue := some 10, amountPaid := some 5,
    datePaid := some "2025-08-20", paidBy := some "Visa" }

/-- C10 counterexample: paying 5 of 10 on a bill previously stored with
`paidInFull = true` rewrites its `paidInFull` back to `false` — paybill can
set `paidInFull` (though not `isPaid`) back to false. -/
theorem c10_cx_partial_resets_paidInFull :
    (paybill 3 partialBody [insuranceBill]).1 =
      [{ billid := 3, billfrom := some "Insurer", billType := some "Insurance",
         amountDue := some 10, dueDate := some "2025-09-01",
         isPaid := some true, paidInFull := some false, amountPaid := some 5,
         datePaid := some "2025-08-20", paidBy := some "Visa" }] := by
  decide

/-- The updatebill flag pair always satisfies `paidInFull ⇒ isPaid`. -/
theorem updatebillFlags_ok (body : Body) :
    (!((updatebillFlags body).2) || (updatebillFlags body).1) = true := by
  unfold updatebillFlags
  split
  · rfl
  · split <;> rfl

/-- The updatebill row update preserves the `paidInFull ⇒ isPaid` invariant. -/
theorem flagsOk_updateRow (n : Int) (body : Body) (a : Bill)
    (ha : flagsOk a = true) :
    flagsOk (updateRow n (updatebillFlags body).1 (updatebillFlags body).2 body a)
      = true := by
  by_cases h : (a.billid : Int) = n
  · unfold updatebillFlags
    split
    · simp [updateRow, h, flagsOk]
    · split
      · simp [updateRow, h, flagsOk]
      · simp [updateRow, h, flagsOk]
  · rw [updateRow_skip h]
    exact ha

/-- C5 (amended): the invariant `paidInFull = true ⇒ isPaid = true` is
preserved by paybill, updatebill and deletebill — every derived flag pair
satisfies it; addbill, however, persists caller-supplied flags and can
create a violating record (see the counterexample). -/
theorem c5_flags_invariant_preserved (n : Int) (body : Body) (s : List Bill)
    (hs : ∀ b ∈ s, flagsOk b = true) :
    (∀ b ∈ (paybill n body s).1, flagsOk b = true) ∧
    (∀ b ∈ (updatebill n body s).1, flagsOk b = true) ∧
    (∀ b ∈ (deletebill n s).1, flagsOk b = true) := by
  have hpay : ∀ pf : Bool, ∀ b ∈ s.map (payRow n true pf body),
      flagsOk b = true := by
    intro pf b hb
    rcases List.mem_map.mp hb with ⟨a, ha, rfl⟩
    by_cases h : (a.billid : Int) = n
    · simp [payRow, h, flagsOk]
    · rw [payRow_skip h]
      exact hs a ha
  refine ⟨?_, ?_, ?_⟩
  · intro b hb
    cases hc1 : jsEq body.amountPaid body.amountDue && jsGtZero body.amountPaid
    · cases hc2 : jsGtZero body.amountPaid
      · rw [show (paybill n body s).1 = s by simp [paybill, hc1, hc2]] at hb
        exact hs b hb
      · rw [show (paybill n body s).1 = s.map (payRow n true false body) by
          simp [paybill, andEqFalse hc1 hc2, hc2]] at hb
        exact hpay false b hb
    · rw [show (paybill n body s).1 = s.map (payRow n true true body) by
        simp [paybill, hc1]] at hb
      exact hpay true b hb
  · intro b hb
    rcases List.mem_map.mp hb with ⟨a, ha, rfl⟩
    exact flagsOk_updateRow n body a (hs a ha)
  · intro b hb
    exact hs b (List.mem_of_mem_filter hb)

/-- The add-bill request body of the C5 counterexample: `paidInFull = true`
supplied together with `isPaid = false`. -/
def chimneyBody : Body :=
  { billfrom := some "Chimney Sweep", billType := some "Home",
    amountDue := some 40, dueDate := some "2025-10-01", isPaid := some false,
    paidInFull := some true, amountPaid := some 0,
    datePaid := some "9999-01-01", paidBy := some "" }

/-- C5 counterexample: one addbill from the empty store reaches a store
whose single record has `paidInFull = true` and `isPaid = false`, breaking
the claimed invariant. -/
theorem c5_cx_addbill_breaks_invariant :
    (addbill 1 chimneyBody []).1 = [newRow 1 chimneyBody] ∧
    (newRow 1 chimneyBody).paidInFull = some true ∧
    (newRow 1 chimneyBody).isPaid = some false ∧
    flagsOk (newRow 1 chimneyBody) = false := by
  decide

/-- C3 (amended): the four-field requirement is enforced by the React
client — when any of Bill From, Bill Type, Amount Due, Due Date is falsy
(empty, zero or absent) `handleSubmit` raises the validation message,
which names the required fields, and issues no request, so the store is
unchanged. -/
theorem c3_client_add_validation (nextId : Nat) (body : Body) (s : List Bill)
    (h : addRequiredMissing body = true) :
    handleSubmit nextId body s = (s, some addValidationMsg) ∧
    strContains addValidationMsg "Bill From" = true ∧
    strContains addValidationMsg "Bill Type" = true ∧
    strContains addValidationMsg "Amount Due" = true ∧
    strContains addValidationMsg "Due Date" = true := by
  exact ⟨by simp [handleSubmit, h], by decide, by decide, by decide, by decide⟩

/-- The add-bill request body of the C3 counterexample: `amountDue` absent. -/
def doctorBody : Body :=
  { billfrom := some "Primary Care Doctor", billType := some "Medical",
    dueDate := some "2025-09-15" }

/-- C3 counterexample: a `POST /addbill` request with `amountDue` absent is
not rejected by the server route — a record is created (with `amountDue`
null) and the route answers 201, because the only validation lives in the
client. -/
theorem c3_cx_server_route_no_validation :
    addbill 1 doctorBody [] =
      ([newRow 1 doctorBody], .created 201 (newRow 1 doctorBody)) ∧
    (newRow 1 doctorBody).amountDue = none ∧
    truthyNum doctorBody.amountDue = false := by
  decide

/-- C6 (amended): a successful addbill persists exactly the request-supplied
payment-field values (with the assigned id), and a subsequent read of the
assigned id returns that row; the documented defaults appear only because
the UI client supplies `amountPaid = 0`, `isPaid = false`,
`paidInFull = false`, `datePaid = "9999-01-01"`, `paidBy = ""` in every
add request. -/
theorem c6_addbill_persists_supplied (nextId : Nat) (body : Body)
    (s : List Bill) (hfresh : ∀ b ∈ s, ¬b.billid = nextId) :
    (addbill nextId body s).2 = .created 201 (newRow nextId body) ∧
    getbillRow (nextId : Int) (addbill nextId body s).1 =
      some (newRow nextId body) := by
  refine ⟨rfl, ?_⟩
  show ((s ++ [newRow nextId body]).filter
      (fun b => (b.billid : Int) == (nextId : Int))).head? = some (newRow nextId body)
  rw [List.filter_append]
  have h1 : s.filter (fun b => (b.billid : Int) == (nextId : Int)) = [] := by
    rw [List.filter_eq_nil_iff]
    intro b hb
    simp [hfresh b hb]
  rw [h1]
  simp [newRow]

/-- The add-bill request body of the C6 counterexample: payment fields
supplied with non-default values. -/
def clinicBody : Body :=
  { billfrom := some "Clinic", billType := some "Medical",
    amountDue := some 56, dueDate := some "2025-09-15", isPaid := some true,
    paidInFull := some false, amountPaid := some 5,
    datePaid := some "2025-08-10", paidBy := some "Visa" }

/-- C6 counterexample: addbill with supplied payment fields persists them —
the stored record has `amountPaid = 5`, `datePaid = "2025-08-10"`,
`paidBy = "Visa"`, not the claimed forced defaults. -/
theorem c6_cx_payment_fields_persisted :
    getbillRow 1 (addbill 1 clinicBody []).1 = some (newRow 1 clinicBody) ∧
    (newRow 1 clinicBody).amountPaid = some 5 ∧
    (newRow 1 clinicBody).isPaid = some true ∧
    (newRow 1 clinicBody).datePaid = some "2025-08-10" ∧
    (newRow 1 clinicBody).paidBy = some "Visa" := by
  decide

/-- A pay-in-full request body used by witnesses. -/
def utilityBody : Body :=
  { amountDue := some 20, amountPaid := some 20,
    datePaid := some "2025-08-01", paidBy := some "Visa" }

/-- Witness for C4: id 7 matches no bill in the store `[waterBill]`
(whose only id is 12), the payment is positive, and all three operations
report the 200 success confirmation with the store unchanged. -/
theorem c4_missing_id_witness :
    paybill 7 utilityBody [waterBill] = ([waterBill], .ok 200 (paybillMsg 7)) ∧
    updatebill 7 utilityBody [waterBill] =
      ([waterBill], .ok 200 (updatebillMsg 7)) ∧
    deletebill 7 [waterBill] = ([waterBill], .ok 200 (deletebillMsg 7)) :=
  c4_missing_id_reports_ok 7 utilityBody [waterBill] (by decide) (by decide)

/-- A request body with every field absent, used by witnesses. -/
def emptyBody : Body := {}

/-- Witness for C9: the segment `"34xy"` parses to 34 and all three routes
behave as if 34 had been supplied. -/
theorem c9_coerce_witness :
    paybillRoute "34xy" emptyBody [] = paybill 34 emptyBody [] ∧
    updatebillRoute "34xy" emptyBody [] = updatebill 34 emptyBody [] ∧
    deletebillRoute "34xy" [] = deletebill 34 [] :=
  c9_routes_coerce "34xy" 34 emptyBody [] (by decide)

/-- Witness for C7: paying 5 of 10 on the stored bill with id 3 answers the
success confirmation and the updated row has `isPaid = true` with
`paidInFull` given by the exact amount comparison. -/
theorem c7_paybill_witness :
    (paybill 3 partialBody [insuranceBill]).2 = .ok 200 (paybillMsg 3) ∧
    (payRow 3 true false partialBody insuranceBill).isPaid = some true ∧
    (payRow 3 true false partialBody insuranceBill).paidInFull =
      some (jsEq partialBody.amountPaid partialBody.amountDue) := by
  have h := c7_paybill_positive 3 partialBody [insuranceBill]
    (by decide) (by decide)
  exact ⟨h.1, (h.2.2 _ (by decide) (by decide)).1,
    (h.2.2 _ (by decide) (by decide)).2.1⟩

/-- A stored bill used by the C1 witness. -/
def taxBill : Bill :=
  { billid := 4, billfrom := some "County", billType := some "Tax",
    amountDue := some 100, dueDate := some "2025-11-01", isPaid := some false,
    paidInFull := some false, amountPaid := some 0,
    datePaid := some "9999-01-01", paidBy := some "" }

/-- An update request body used by the C1 witness. -/
def taxBody : Body :=
  { billfrom := some "County", billType := some "Tax",
    amountDue := some 100, dueDate := some "2025-11-01",
    amountPaid := some 30, datePaid := some "2025-10-05",
    paidBy := some "Check" }

/-- Witness for C1: supplying `isPaid = true, paidInFull = false` in the
body changes nothing about the updatebill result, and the updated row's
flags are the recomputed ones. -/
theorem c1_ignore_flags_witness :
    updatebill 4 { taxBody with isPaid := some true, paidInFull := some false }
        [taxBill] = updatebill 4 taxBody [taxBill] ∧
    (updateRow 4 (updatebillFlags taxBody).1 (updatebillFlags taxBody).2
        taxBody taxBill).isPaid = some (updatebillFlags taxBody).1 := by
  have h := c1_pay_update_ignore_flags 4 taxBody [taxBill]
    (some true) (some false)
  exact ⟨h.2.1, (h.2.2.1 _ (by decide) (by decide)).1⟩

/-- An update request body with a zero payment against a nonzero amount
due, used by the C2 witness. -/
def feeBody : Body :=
  { billfrom := some "Gym", billType := some "Home", amountDue := some 25,
    dueDate := some "2025-12-01", amountPaid := some 0,
    datePaid := some "9999-01-01", paidBy := some "" }

/-- Witness for C2: `amountPaid = 0` with `amountDue = 25` is non-positive
and not loosely equal, so the derived flags are `(false, false)`. -/
theorem c2_nonpositive_witness : updatebillFlags feeBody = (false, false) :=
  (c2_updatebill_nonpositive 1 feeBody [] (by decide) (by decide)).1

/-- A pay request body with `amountPaid = 0`, used by the C10 witness. -/
def overdueBody : Body :=
  { amountDue := some 10, amountPaid := some 0,
    datePaid := some "2025-08-20", paidBy := some "Visa" }

/-- Witness for C10: a zero payment makes paybill fail with the store
unchanged, and the surviving stored row was already in the store. -/
theorem c10_null_guard_witness :
    paybill 3 overdueBody [insuranceBill] = ([insuranceBill], .jsonErr) ∧
    (insuranceBill ∈ (paybill 3 overdueBody [insuranceBill]).1 →
      insuranceBill ∈ ([insuranceBill] : List Bill) ∨
        insuranceBill.isPaid = some true) := by
  have h := c10_paybill_null_guard 3 overdueBody [insuranceBill]
  exact ⟨h.1 (by decide), fun hm => h.2 insuranceBill hm⟩

/-- Witness for C5: from the singleton store holding `powerBill` (which
satisfies the invariant), the row updatebill writes still satisfies it. -/
theorem c5_invariant_witness :
    flagsOk (updateRow 1 (updatebillFlags powerBody).1
      (updatebillFlags powerBody).2 powerBody powerBill) = true := by
  have h := c5_flags_invariant_preserved 1 powerBody [powerBill] (by decide)
  exact h.2.1 _ (by decide)

/-- An add request body with `billType` absent, used by the C3 witness. -/
def noTypeBody : Body :=
  { billfrom := some "Dentist", amountDue := some 50,
    dueDate := some "2025-09-15" }

/-- Witness for C3: with Bill Type absent the client raises the validation
message — which names the missing field — and the store stays empty. -/
theorem c3_validation_witness :
    handleSubmit 1 noTypeBody [] = ([], some addValidationMsg) ∧
    strContains addValidationMsg "Bill Type" = true := by
  have h := c3_client_add_validation 1 noTypeBody [] (by decide)
  exact ⟨h.1, h.2.2.1⟩

/-- Witness for C6: adding `clinicBody` with next id 2 to a store whose
only id is 12 answers 201 with the new row, and reading id 2 returns it. -/
theorem c6_roundtrip_witness :
    (addbill 2 clinicBody [waterBill]).2 = .created 201 (newRow 2 clinicBody) ∧
    getbillRow 2 (addbill 2 clinicBody [waterBill]).1 =
      some (newRow 2 clinicBody) :=
  c6_addbill_persists_supplied 2 clinicBody [waterBill] (by decide)

end BillMgmt
